import Mathlib

/-!
Verification of the vis-grep synthetic log generator
(`generate_test_logs.py` and `test_tail_tree.py`) against its
natural-language specification.

The Python sources are shallowly embedded: random draws become explicit
inputs (a draw in `[0,1)` is a rational parameter, `random.randint(a,b)`
an integer parameter with range hypotheses where the claims need them),
floats become rationals, files become strings, and the writer thread's
loop becomes a function over the finite sequence of values its
`while self.running` guard reads.
-/

/-! ## Catalogs (generate_test_logs.py, lines 23-64) -/

def LOG_LEVELS : List String := ["DEBUG", "INFO", "WARN", "ERROR", "FATAL"]

def LOG_COMPONENTS : List String :=
  ["Database", "WebServer", "APIHandler", "AuthService",
   "CacheManager", "MessageQueue", "FileProcessor", "Scheduler"]

def NOUNS : List String :=
  ["record", "document", "entity", "object", "resource", "item", "entry"]

def ACTIONS : List String :=
  ["create", "update", "delete", "fetch", "process", "validate", "parse"]

def ERRORS : List String :=
  ["timeout", "connection refused", "invalid format", "not found", "permission denied"]

def METHODS : List String := ["OAuth2", "SAML", "JWT", "API Key", "Basic Auth"]

def JOB_NAMES : List String :=
  ["data_sync", "report_generation", "cleanup", "backup", "indexing"]

def ENDPOINTS : List String :=
  ["users", "orders", "products", "auth", "analytics", "search"]

def FILENAMES : List String :=
  ["data.csv", "report.pdf", "config.json", "backup.tar.gz", "log.txt"]

def STATUS_CODES : List Int := [200, 201, 400, 404, 500, 503]

/-! ## Message synthesizer (generate_test_logs.py, lines 67-101) -/

/-- The keyword arguments passed to `template.format(...)` on lines 79-99,
with each `random.*` draw already performed. -/
structure Placeholders where
  noun : String
  action : String
  user_id : String
  latency : Int
  status : Int
  percentage : Int
  count : Int
  max_count : Int
  error : String
  method : String
  job_name : String
  endpoint : String
  filename : String
  timeout : Int
  attempt : Int
  max_attempts : Int
  idle : Int
  size : Int
  max_size : Int

/-- An apostrophe character (used by the template on line 50). -/
def squote : String := String.mk [Char.ofNat 39]

/-- MESSAGE_TEMPLATES (lines 40-56), each Python format string rendered as a
function of the placeholder values it interpolates. -/
def MESSAGE_TEMPLATES : List (Placeholders → String) :=
  [fun p => "Processing " ++ p.noun ++ " for user " ++ p.user_id,
   fun p => "Database query took " ++ toString p.latency ++ "ms",
   fun p => "API endpoint /" ++ p.endpoint ++ " returned status " ++ toString p.status,
   fun p => "Cache hit ratio: " ++ toString p.percentage ++ "%",
   fun p => "Connection pool size: " ++ toString p.count ++ "/" ++ toString p.max_count,
   fun p => p.action ++ " " ++ p.noun ++ " completed successfully",
   fun p => "Failed to " ++ p.action ++ " " ++ p.noun ++ ": " ++ p.error,
   fun p => "Memory usage: " ++ toString p.percentage ++ "% (" ++ toString p.size ++
     "MB / " ++ toString p.max_size ++ "MB)",
   fun p => "Received " ++ toString p.count ++ " messages from queue",
   fun p => "Background job " ++ squote ++ p.job_name ++ squote ++ " " ++ toString p.status,
   fun p => "User " ++ p.user_id ++ " authenticated via " ++ p.method,
   fun p => "File " ++ p.filename ++ " processed in " ++ toString p.latency ++ "ms",
   fun p => "Request timeout after " ++ toString p.timeout ++ "s",
   fun p => "Retry attempt " ++ toString p.attempt ++ "/" ++ toString p.max_attempts,
   fun p => toString p.count ++ " active sessions, " ++ toString p.idle ++ " idle"]

/-- All random draws consumed by one call of `generate_log_line` (lines 67-99):
the formatted timestamp, the (weighted) severity choice, the component and
template choices, and every placeholder draw.  The unweighted `random.choice`
on line 70 is dead (overwritten on line 75) and is not modelled. -/
structure LineInput where
  ts : String
  lvlIdx : Fin 5
  compIdx : Fin 8
  tmplIdx : Fin 15
  nounIdx : Fin 7
  actionIdx : Fin 7
  userNum : Int
  latency : Int
  statusIdx : Fin 6
  percentage : Int
  count : Int
  maxCount : Int
  errIdx : Fin 5
  methodIdx : Fin 5
  jobIdx : Fin 5
  endpointIdx : Fin 6
  fileIdx : Fin 5
  timeout : Int
  attempt : Int
  idle : Int
  size : Int
  maxSize : Int

/-- The `template.format(...)` keyword arguments of lines 79-99. -/
def mkPlaceholders (inp : LineInput) : Placeholders :=
  { noun := NOUNS.get (Fin.cast rfl inp.nounIdx)
    action := ACTIONS.get (Fin.cast rfl inp.actionIdx)
    user_id := "user_" ++ toString inp.userNum
    latency := inp.latency
    status := STATUS_CODES.get (Fin.cast rfl inp.statusIdx)
    percentage := inp.percentage
    count := inp.count
    max_count := inp.maxCount
    error := ERRORS.get (Fin.cast rfl inp.errIdx)
    method := METHODS.get (Fin.cast rfl inp.methodIdx)
    job_name := JOB_NAMES.get (Fin.cast rfl inp.jobIdx)
    endpoint := ENDPOINTS.get (Fin.cast rfl inp.endpointIdx)
    filename := FILENAMES.get (Fin.cast rfl inp.fileIdx)
    timeout := inp.timeout
    attempt := inp.attempt
    max_attempts := 3
    idle := inp.idle
    size := inp.size
    max_size := inp.maxSize }

/-- The filled message body (lines 78-99). -/
def message_of (inp : LineInput) : String :=
  (MESSAGE_TEMPLATES.get (Fin.cast rfl inp.tmplIdx)) (mkPlaceholders inp)

/-- Python `{s:n}` string field: left-justify to minimum width `n`. -/
def padRight (s : String) (n : Nat) : String :=
  s ++ String.mk (List.replicate (n - s.length) ' ')

/-- `generate_log_line` (lines 67-101):
`f"{timestamp} [{level:5}] {component:15} - {message}\n"`. -/
def generate_log_line (inp : LineInput) : String :=
  inp.ts ++ " [" ++ padRight (LOG_LEVELS.get (Fin.cast rfl inp.lvlIdx)) 5 ++ "] " ++
    padRight (LOG_COMPONENTS.get (Fin.cast rfl inp.compIdx)) 15 ++ " - " ++
    message_of inp ++ "\n"

/-! ## Rate policy resolution (generate_test_logs.py, lines 194-236) -/

/-- The `--rate` argument; argparse restricts it to these four choices
(line 196), so it is a closed enumeration. -/
inductive RateName where
  | slow
  | medium
  | fast
  | burst
deriving DecidableEq

/-- One resolved `rate_config` dictionary value. -/
structure RateConfig where
  min_interval : ℚ
  max_interval : ℚ
deriving DecidableEq

/-- The parsed command line of `generate_test_logs.py` (lines 173-220).
`stem` models `args.prefix`. -/
structure Args where
  files : Int
  duration : Int
  dir : String
  rate : RateName
  min_interval : Option ℚ
  max_interval : Option ℚ
  stem : String

/-- The `rate_presets` dictionary (lines 223-228). -/
def rate_presets : RateName → RateConfig
  | RateName.slow => ⟨2.0, 5.0⟩
  | RateName.medium => ⟨0.5, 2.0⟩
  | RateName.fast => ⟨0.1, 0.5⟩
  | RateName.burst => ⟨0.01, 0.1⟩

/-- Rate resolution in `main` (lines 230-236): the explicit pair is used when
both `--min-interval` and `--max-interval` were given, otherwise the preset
selected by `--rate` is used. -/
def resolve_rate_config (a : Args) : RateConfig :=
  match a.min_interval, a.max_interval with
  | some mn, some mx => ⟨mn, mx⟩
  | _, _ => rate_presets a.rate

/-! ## File writer loop (generate_test_logs.py, lines 104-153) -/

/-- The per-writer state visible in `LogGenerator`: the `lines_written`
counter and the text appended to the file so far by this writer. -/
structure WriterState where
  lines_written : Nat
  content : String
deriving DecidableEq

/-- The random draws consumed by one iteration of `_generate_loop`
(lines 130-153): the `random.uniform` parameter `u` in `[0,1)` for the
interval, the `random.random()` burst roll, the `random.randint(3,10)`
burst size, and the per-line synthesizer inputs. -/
structure IterInput where
  u : ℚ
  burstRoll : ℚ
  burstSize : Nat
  lines : Nat → LineInput

/-- Python `random.uniform(a, b) = a + (b - a) * random()`. -/
def uniform (a b u : ℚ) : ℚ := a + (b - a) * u

/-- One `f.write(line); f.flush(); self.lines_written += 1` step
(lines 142-144 and 149-151). -/
def writeLine (st : WriterState) (line : String) : WriterState :=
  { lines_written := st.lines_written + 1, content := st.content ++ line }

/-- The lines written by one iteration: a burst of `burst_size` lines when
`random.random() < 0.1` (lines 138-144), otherwise one line (lines 147-151). -/
def iterWrites (inp : IterInput) : List String :=
  if inp.burstRoll < 1/10 then
    (List.range inp.burstSize).map (fun j => generate_log_line (inp.lines j))
  else
    [generate_log_line (inp.lines 0)]

/-- The state effect of one loop iteration (lines 130-153): each line is
written, flushed and counted in order; the trailing `time.sleep` does not
change the state. -/
def iterBody (inp : IterInput) (st : WriterState) : WriterState :=
  (iterWrites inp).foldl writeLine st

/-- Observable actions of the writer loop, in program order. -/
inductive Event where
  | sleep (duration : ℚ)
  | write (line : String)
  | flush
  | report (burstSize : Nat)
deriving DecidableEq

/-- The events of the burst branch (lines 138-145): write and flush each of
the `burst_size` lines, then print the burst report. -/
def burstEvents (inp : IterInput) : List Event :=
  ((List.range inp.burstSize).flatMap
    (fun j => [Event.write (generate_log_line (inp.lines j)), Event.flush])) ++
  [Event.report inp.burstSize]

/-- The write-phase events of one iteration (lines 137-151). -/
def writePhase (inp : IterInput) : List Event :=
  if inp.burstRoll < 1/10 then burstEvents inp
  else [Event.write (generate_log_line (inp.lines 0)), Event.flush]

/-- The full event trace of one iteration of `_generate_loop`
(lines 130-153): the interval is computed first (lines 132-135) but
`time.sleep(interval)` runs last (line 153), after the writes. -/
def iterEvents (rc : RateConfig) (inp : IterInput) : List Event :=
  writePhase inp ++ [Event.sleep (uniform rc.min_interval rc.max_interval inp.u)]

/-- `while self.running: ...` (lines 130-153) over the finite sequence of
values the guard reads: each list entry is one guard read paired with the
draws the iteration would consume; a `false` read exits the loop. -/
def generateLoop : List (Bool × IterInput) → WriterState → WriterState
  | [], st => st
  | (r, inp) :: rest, st => if r then generateLoop rest (iterBody inp st) else st

def isWrite : Event → Bool
  | Event.write _ => true
  | _ => false

/-- Number of lines written in an event trace. -/
def countWrites (l : List Event) : Nat := (l.filter isWrite).length

/-! ## Timing model for stop observation (lines 121-125 and 130-153)

`stop()` sets `running = False` at real time `T` and joins.  The guard is
read at the start of each iteration; iteration `i` then takes `w i` time
for its writes plus `sleepDur i` for its sleep, so the `(i+1)`-st guard
read happens at `checkTime (i+1)`.  A guard read at or after `T` observes
`False` (the flag, once cleared, is never set again during a run). -/

/-- The sleep duration of iteration `i`:
`random.uniform(min_interval, max_interval)` (lines 132-135). -/
def sleepDur (rc : RateConfig) (inps : Nat → IterInput) (i : Nat) : ℚ :=
  uniform rc.min_interval rc.max_interval (inps i).u

/-- The real time of the `i`-th guard read, given per-iteration write-phase
durations `w` and sleep durations `d`. -/
def checkTime (w d : Nat → ℚ) : Nat → ℚ
  | 0 => 0
  | i + 1 => checkTime w d i + w i + d i

/-- The guard reads the loop performs when the stop flag is cleared at time
`T`: read `i` observes `running = true` exactly when it happens before `T`.
The trace covers reads `0..n` where `n` is the first read at or after `T`. -/
def stopTrace (w d : Nat → ℚ) (T : ℚ) (inps : Nat → IterInput) (n : Nat) :
    List (Bool × IterInput) :=
  (List.range (n + 1)).map (fun i => (decide (checkTime w d i < T), inps i))

/-- `n` complete loop iterations from state `st`. -/
def foldIters (inps : Nat → IterInput) (n : Nat) (st : WriterState) : WriterState :=
  (List.range n).foldl (fun s i => iterBody (inps i) s) st

/-! ## File creation (generate_test_logs.py, lines 250-263) -/

/-- A flat model of the output directory: each path maps to the file's
current content (absent files read as `""`). -/
def write_file (fs : String → String) (p c : String) : String → String :=
  fun q => if q = p then c else fs q

/-- Appending to a file opened in mode `'a'`. -/
def append_file (fs : String → String) (p s : String) : String → String :=
  fun q => if q = p then fs q ++ s else fs q

/-- Header line 1 (line 257); `now` is the formatted `datetime.now()` value. -/
def hline1 (now : String) : String := "# Log file generated at " ++ now ++ "\n"

/-- Header line 2 (line 258); `rdesc` is the rendered
`f"{rate_config['min_interval']}-{rate_config['max_interval']}s"` value
(Python float formatting is not re-modelled digit by digit). -/
def hline2 (rdesc : String) : String := "# Rate: " ++ rdesc ++ "\n"

/-- Header line 3 (line 259). -/
def hline3 : String := "# ============================================\n"

/-- The full 3-line header. -/
def header (now rdesc : String) : String :=
  hline1 now ++ hline2 rdesc ++ hline3

/-- `with open(filepath, 'w') as f: f.write(...); f.write(...); f.write(...)`
(lines 256-259): mode `'w'` truncates, then the three header lines are
appended in order. -/
def create_file_with_header (fs : String → String) (p now rdesc : String) :
    String → String :=
  append_file (append_file (write_file fs p (hline1 now)) p (hline2 rdesc)) p hline3

/-- Number of newline characters in a string. -/
def newlineCount (s : String) : Nat :=
  (s.toList.filter (fun c => c == '\n')).length

/-- The log file paths created by the loop on lines 252-253:
`output_dir / f"{args.prefix}_{i+1}.log"` for `i in range(args.files)`
(a non-positive `args.files` makes the range empty). -/
def created_file_paths (a : Args) : List String :=
  (List.range a.files.toNat).map
    (fun i => a.dir ++ "/" ++ a.stem ++ "_" ++ toString (i + 1) ++ ".log")

/-- The configuration-and-creation stage of `main` (lines 220-263) up to
spawning the writers.  `Except String` models Python's exception surface
for a would-be ConfigurationError; the source performs no validation and
contains no raise on this path, so the result is always `ok`. -/
def main_setup (a : Args) : Except String (RateConfig × List String) :=
  Except.ok (resolve_rate_config a, created_file_paths a)

/-! ## Layout emitter (test_tail_tree.py) -/

/-- `files_per_group = NUM_FILES // NUM_GROUPS` (line 130). -/
def files_per_group (n g : Nat) : Nat := n / g

/-- `files_in_group = files_per_group + (1 if i < remainder else 0)`
(lines 131, 137), with `remainder = NUM_FILES % NUM_GROUPS`. -/
def files_in_group (n g i : Nat) : Nat :=
  files_per_group n g + (if i < n % g then 1 else 0)

/-- The sizes of the groups generated by the loop on lines 135-140. -/
def groupSizes (n g : Nat) : List Nat :=
  (List.range g).map (files_in_group n g)

/-- The nested split of a group holding `k` files (lines 81, 96):
`nested_files = k // 2` go to the first sub-group, the rest to the second. -/
def nestedSplit (k : Nat) : Nat × Nat := (k / 2, k - k / 2)

/-- `collapsed = "true" if group_num > 1 else "false"` (line 67 of
test_tail_tree.py). -/
def collapsed_flag (group_num : Nat) : String :=
  if group_num > 1 then "true" else "false"

/-- The collapsed flags of the `g` groups emitted by the loop on
lines 135-140, in position order. -/
def groupFlags (g : Nat) : List String :=
  (List.range g).map collapsed_flag

/-- The group-partitioning stage of `test_tail_tree.py` (lines 129-139)
with its Python exception surface: `NUM_FILES // NUM_GROUPS` (line 130)
raises an uncaught ZeroDivisionError when `NUM_GROUPS = 0`; otherwise the
loop over `range(NUM_GROUPS)` (empty when `NUM_GROUPS` is negative) emits
one group of `files_per_group + (1 if i < remainder else 0)` files each.
Python's `//` and `%` on ints are floor division and its remainder,
i.e. `Int.fdiv` and `Int.fmod`. -/
def layout_group_sizes (files groups : Int) : Except String (List Int) :=
  if groups = 0 then
    Except.error "ZeroDivisionError: integer division or modulo by zero"
  else
    Except.ok ((List.range groups.toNat).map
      (fun i => Int.fdiv files groups +
        (if (i : Int) < Int.fmod files groups then 1 else 0)))

/-! ## Concrete instances used by counterexamples and witnesses -/

/-- Invocation supplying only `--min-interval 1.0`, keeping the default
`--rate medium`. -/
def argsOnlyMin : Args :=
  { files := 3, duration := 60, dir := "test_logs", rate := RateName.medium,
    min_interval := some 1.0, max_interval := none, stem := "test" }

/-- Invocation supplying the inverted pair `--min-interval 5 --max-interval 1`. -/
def argsInverted : Args :=
  { files := 3, duration := 60, dir := "test_logs", rate := RateName.medium,
    min_interval := some 5.0, max_interval := some 1.0, stem := "test" }

/-- Invocation with `--files 0`. -/
def argsZeroFiles : Args :=
  { files := 0, duration := 60, dir := "test_logs", rate := RateName.medium,
    min_interval := none, max_interval := none, stem := "test" }

/-- Invocation with `--files -2`. -/
def argsNegFiles : Args :=
  { files := -2, duration := 60, dir := "test_logs", rate := RateName.medium,
    min_interval := none, max_interval := none, stem := "test" }

/-- A concrete set of synthesizer draws. -/
def lineInp0 : LineInput :=
  { ts := "2025-01-01 00:00:00.000", lvlIdx := 0, compIdx := 0, tmplIdx := 0,
    nounIdx := 0, actionIdx := 0, userNum := 1000, latency := 10, statusIdx := 0,
    percentage := 10, count := 1, maxCount := 100, errIdx := 0, methodIdx := 0,
    jobIdx := 0, endpointIdx := 0, fileIdx := 0, timeout := 5, attempt := 1,
    idle := 0, size := 100, maxSize := 8000 }

/-- A concrete non-burst iteration draw (`random.random() = 0.5 ≥ 0.1`). -/
def inp0 : IterInput :=
  { u := 0, burstRoll := 0.5, burstSize := 3, lines := fun _ => lineInp0 }

/-- A constant iteration-draw stream. -/
def inpsW : Nat → IterInput := fun _ => inp0

/-- Zero write-phase durations. -/
def wZero : Nat → ℚ := fun _ => 0

/-- The initial writer state (`lines_written = 0`, nothing appended). -/
def st0 : WriterState := ⟨0, ""⟩

/-- A directory state with pre-existing content at every path. -/
def fsOld : String → String := fun _ => "old"

/-- A concrete formatted `datetime.now()` value. -/
def nowW : String := "2025-01-01 00:00:00"

/-- A concrete rendered rate description. -/
def rdescW : String := "0.5-2.0s"

/-- A concrete output path. -/
def pathW : String := "test_logs/test_1.log"

/-! ## Helper lemmas -/

/-- Summing `q` plus an extra 1 for the first `r` indices over `range g`
gives `g * q + min r g`. -/
lemma sum_range_map_extra (q r : Nat) :
    ∀ g : Nat,
      ((List.range g).map (fun i => q + if i < r then 1 else 0)).sum =
        g * q + min r g := by
  intro g
  induction g with
  | zero => simp
  | succ k ih =>
    rw [List.range_succ, List.map_append, List.sum_append, ih]
    simp only [List.map_cons, List.map_nil, List.sum_cons, List.sum_nil]
    rw [Nat.succ_mul]
    rcases Nat.lt_or_ge k r with h | h
    · rw [if_pos h]
      omega
    · rw [if_neg (Nat.not_lt.mpr h)]
      omega

/-! ## C1: single-bound override handling -/

/-- C1 counterexample: with only `--min-interval` supplied, resolution does
not fail with a configuration error — it silently returns the `medium`
preset, ignoring the supplied bound, contradicting the claim that supplying
exactly one bound is rejected. -/
theorem c1_single_bound_silently_falls_back :
    resolve_rate_config argsOnlyMin = rate_presets RateName.medium ∧
      rate_presets RateName.medium = ⟨0.5, 2.0⟩ ∧
      (0.5 : ℚ) ≠ 1.0 := by
  refine ⟨rfl, rfl, by norm_num⟩

/-- C1 (amended): an explicit override takes precedence exactly when both
bounds are supplied; when only one of the two is supplied the override is
ignored and resolution silently falls back to the named preset, with no
configuration error raised. -/
theorem c1_override_requires_both_bounds (mn mx : ℚ) (f d : Int)
    (dir stem : String) (r : RateName) :
    resolve_rate_config
        { files := f, duration := d, dir := dir, rate := r,
          min_interval := some mn, max_interval := none, stem := stem } =
      rate_presets r ∧
    resolve_rate_config
        { files := f, duration := d, dir := dir, rate := r,
          min_interval := none, max_interval := some mx, stem := stem } =
      rate_presets r ∧
    resolve_rate_config
        { files := f, duration := d, dir := dir, rate := r,
          min_interval := some mn, max_interval := some mx, stem := stem } =
      ⟨mn, mx⟩ := by
  exact ⟨rfl, rfl, rfl⟩

/-! ## C3: the RatePolicy invariant -/

/-- C3 counterexample: the explicit two-bound override `min=5.0, max=1.0` is
accepted verbatim, producing a resolved policy with
`max_interval < min_interval`, so the invariant
`0 ≤ min_interval ≤ max_interval` does not hold for every resolved policy. -/
theorem c3_inverted_override_violates_invariant :
    (resolve_rate_config argsInverted).max_interval <
      (resolve_rate_config argsInverted).min_interval := by
  show (1.0 : ℚ) < 5.0
  norm_num

/-- C3 (amended): every named preset satisfies
`0 ≤ min_interval ≤ max_interval`; an explicit two-bound override is adopted
verbatim without validation, so the resolved policy satisfies the invariant
exactly when the supplied bounds themselves do. -/
theorem c3_rate_policy_invariant (r : RateName) (a : Args) (mn mx : ℚ)
    (hmn : a.min_interval = some mn) (hmx : a.max_interval = some mx)
    (h0 : 0 ≤ mn) (hle : mn ≤ mx) :
    (0 ≤ (rate_presets r).min_interval ∧
      (rate_presets r).min_interval ≤ (rate_presets r).max_interval) ∧
    resolve_rate_config a = ⟨mn, mx⟩ ∧
    (0 ≤ (resolve_rate_config a).min_interval ∧
      (resolve_rate_config a).min_interval ≤ (resolve_rate_config a).max_interval) := by
  have hres : resolve_rate_config a = ⟨mn, mx⟩ := by
    unfold resolve_rate_config
    rw [hmn, hmx]
  refine ⟨?_, hres, ?_⟩
  · cases r <;> constructor <;> norm_num [rate_presets]
  · rw [hres]
    exact ⟨h0, hle⟩

/-- C3 witness: the amended invariant theorem at the concrete override
`min=0.5, max=2.0`. -/
theorem c3_rate_policy_invariant_witness :
    (0 ≤ (rate_presets RateName.fast).min_interval ∧
      (rate_presets RateName.fast).min_interval ≤
        (rate_presets RateName.fast).max_interval) ∧
    resolve_rate_config
        { files := 3, duration := 60, dir := "test_logs", rate := RateName.medium,
          min_interval := some 0.5, max_interval := some 2.0, stem := "test" } =
      ⟨0.5, 2.0⟩ ∧
    (0 ≤ (resolve_rate_config
        { files := 3, duration := 60, dir := "test_logs", rate := RateName.medium,
          min_interval := some 0.5, max_interval := some 2.0, stem := "test" }).min_interval ∧
      (resolve_rate_config
        { files := 3, duration := 60, dir := "test_logs", rate := RateName.medium,
          min_interval := some 0.5, max_interval := some 2.0, stem := "test" }).min_interval ≤
      (resolve_rate_config
        { files := 3, duration := 60, dir := "test_logs", rate := RateName.medium,
          min_interval := some 0.5, max_interval := some 2.0, stem := "test" }).max_interval) :=
  c3_rate_policy_invariant RateName.fast _ 0.5 2.0 rfl rfl (by norm_num) (by norm_num)

/-! ## C5: layout partitioning -/

/-- C5: the partitioning rule of `test_tail_tree.py` (lines 129-139): the
group sizes sum to the file count, each group gets `n / g` files plus one
extra for the first `n % g` groups, any two group sizes differ by at most
one, the nested variant splits the first group's `k` files into sub-groups
of sizes `k / 2` and `k - k / 2`, and the spec's worked examples
(10 files / 3 groups gives sizes 4,3,3; 10 files / 2 groups nested splits
the first group's 5 files into 2 and 3) hold. -/
theorem c5_partitioning (n g : Nat) (hg : 0 < g) :
    (groupSizes n g).sum = n ∧
    (∀ i, files_in_group n g i = n / g + (if i < n % g then 1 else 0)) ∧
    (∀ i j, files_in_group n g i ≤ files_in_group n g j + 1) ∧
    (nestedSplit (files_in_group n g 0)).1 = files_in_group n g 0 / 2 ∧
    (nestedSplit (files_in_group n g 0)).1 + (nestedSplit (files_in_group n g 0)).2 =
      files_in_group n g 0 ∧
    groupSizes 10 3 = [4, 3, 3] ∧
    nestedSplit (files_in_group 10 2 0) = (2, 3) := by
  have hmod : n % g < g := Nat.mod_lt _ hg
  have hdm := Nat.div_add_mod n g
  refine ⟨?_, fun i => rfl, ?_, rfl, ?_, rfl, rfl⟩
  · show ((List.range g).map (files_in_group n g)).sum = n
    have hfun : files_in_group n g = fun i => n / g + if i < n % g then 1 else 0 := rfl
    rw [hfun, sum_range_map_extra]
    omega
  · intro i j
    unfold files_in_group files_per_group
    split_ifs <;> omega
  · show files_in_group n g 0 / 2 + (files_in_group n g 0 - files_in_group n g 0 / 2) =
      files_in_group n g 0
    omega

/-- C5 witness: the partitioning theorem at `n = 10`, `g = 3`. -/
theorem c5_partitioning_witness :
    0 < 3 ∧
    ((groupSizes 10 3).sum = 10 ∧
      (∀ i, files_in_group 10 3 i = 10 / 3 + (if i < 10 % 3 then 1 else 0)) ∧
      (∀ i j, files_in_group 10 3 i ≤ files_in_group 10 3 j + 1) ∧
      (nestedSplit (files_in_group 10 3 0)).1 = files_in_group 10 3 0 / 2 ∧
      (nestedSplit (files_in_group 10 3 0)).1 + (nestedSplit (files_in_group 10 3 0)).2 =
        files_in_group 10 3 0 ∧
      groupSizes 10 3 = [4, 3, 3] ∧
      nestedSplit (files_in_group 10 2 0) = (2, 3)) :=
  ⟨by decide, c5_partitioning 10 3 (by decide)⟩

/-! ## C6: collapsed flags of emitted groups -/

/-- C6 counterexample: in a two-group layout, the group at position 1 is
emitted with `collapsed: false` (the source tests `group_num > 1`, not
`group_num ≥ 1`), contradicting the claim that every group other than the
first has `collapsed = true`. -/
theorem c6_second_group_not_collapsed :
    groupFlags 2 = ["false", "false"] ∧ collapsed_flag 1 = "false" ∧
      "false" ≠ "true" := by
  refine ⟨rfl, rfl, by decide⟩

/-- C6 (amended): the groups at positions 0 and 1 are emitted with
`collapsed = false`, and every group at position 2 or later with
`collapsed = true`. -/
theorem c6_collapsed_flags (i : Nat) (h : 2 ≤ i) :
    collapsed_flag 0 = "false" ∧ collapsed_flag 1 = "false" ∧
      collapsed_flag i = "true" := by
  refine ⟨rfl, rfl, ?_⟩
  unfold collapsed_flag
  rw [if_pos]
  omega

/-- C6 witness: the amended flag theorem at position 2. -/
theorem c6_collapsed_flags_witness :
    collapsed_flag 0 = "false" ∧ collapsed_flag 1 = "false" ∧
      collapsed_flag 2 = "true" :=
  c6_collapsed_flags 2 (by decide)

/-! ## C7: rendered line shape -/

/-- C7: every line the synthesizer produces has the fixed rendering shape
`TIMESTAMP [SEVERITY] COMPONENT - MESSAGE` followed by a newline, with the
severity drawn from the fixed five-level set and the component from the
fixed eight-entry catalog (both fields left-justified to the fixed widths
the f-string on line 101 prescribes). -/
theorem c7_log_line_shape (inp : LineInput) :
    ∃ lvl, lvl ∈ LOG_LEVELS ∧ ∃ comp, comp ∈ LOG_COMPONENTS ∧
      generate_log_line inp =
        inp.ts ++ " [" ++ padRight lvl 5 ++ "] " ++ padRight comp 15 ++ " - " ++
          message_of inp ++ "\n" :=
  ⟨_, List.get_mem _ _ _, _, List.get_mem _ _ _, rfl⟩

/-! ## C8: file creation truncates; appends grow -/

/-- `newlineCount` distributes over append. -/
lemma newlineCount_append (a b : String) :
    newlineCount (a ++ b) = newlineCount a + newlineCount b := by
  simp only [newlineCount, String.toList, String.data_append, List.filter_append,
    List.length_append]

/-- A newline-free string has `newlineCount` zero. -/
lemma newlineCount_eq_zero (s : String) (h : Char.ofNat 10 ∉ s.toList) :
    newlineCount s = 0 := by
  simp only [newlineCount, List.length_eq_zero, List.filter_eq_nil_iff]
  intro a ha hbeq
  rw [beq_iff_eq] at hbeq
  subst hbeq
  exact h ha

/-- Content of the just-created file. -/
lemma create_file_with_header_self (fs : String → String) (p now rdesc : String) :
    create_file_with_header fs p now rdesc p = header now rdesc := by
  simp [create_file_with_header, append_file, write_file, header, String.append_assoc]

/-- One iteration only appends to the writer's file. -/
lemma foldl_writeLine_content (ls : List String) :
    ∀ st : WriterState, ∃ t, (ls.foldl writeLine st).content = st.content ++ t := by
  induction ls with
  | nil =>
    intro st
    exact ⟨"", (String.append_empty st.content).symm⟩
  | cons l tl ih =>
    intro st
    obtain ⟨t, ht⟩ := ih (writeLine st l)
    refine ⟨l ++ t, ?_⟩
    rw [List.foldl_cons, ht]
    simp [writeLine, String.append_assoc]

/-- C8: creating a file writes the fresh 3-line header whatever the prior
content at that path was (mode `'w'` truncates), re-creating it is an
idempotent reset, the header has exactly three newline-terminated lines,
and a writer's subsequent appends strictly extend the existing content
(each loop iteration only appends). -/
theorem c8_create_truncates_appends_grow (fs : String → String)
    (p now rdesc str : String)
    (h1 : Char.ofNat 10 ∉ now.toList)
    (h2 : Char.ofNat 10 ∉ rdesc.toList) :
    create_file_with_header fs p now rdesc p = header now rdesc ∧
    (∀ q, create_file_with_header (create_file_with_header fs p now rdesc) p now rdesc q =
      create_file_with_header fs p now rdesc q) ∧
    newlineCount (create_file_with_header fs p now rdesc p) = 3 ∧
    append_file (create_file_with_header fs p now rdesc) p str p = header now rdesc ++ str ∧
    (create_file_with_header fs p now rdesc p).length ≤
      (append_file (create_file_with_header fs p now rdesc) p str p).length ∧
    (∀ inp st, ∃ t, (iterBody inp st).content = st.content ++ t) := by
  have hself := create_file_with_header_self fs p now rdesc
  have hself2 := create_file_with_header_self (create_file_with_header fs p now rdesc) p now rdesc
  have happ : append_file (create_file_with_header fs p now rdesc) p str p =
      header now rdesc ++ str := by
    simp [append_file, hself]
  refine ⟨hself, ?_, ?_, happ, ?_, ?_⟩
  · intro q
    by_cases hq : q = p
    · subst hq
      rw [hself2, hself]
    · simp [create_file_with_header, append_file, write_file, hq]
  · rw [hself]
    unfold header hline1 hline2
    simp only [newlineCount_append]
    rw [newlineCount_eq_zero now h1, newlineCount_eq_zero rdesc h2]
    decide
  · rw [happ, hself, String.length_append]
    exact Nat.le_add_right _ _
  · intro inp st
    exact foldl_writeLine_content (iterWrites inp) st

/-- C8 witness: the creation/append theorem at a concrete directory state,
path, timestamp and rate description. -/
theorem c8_create_truncates_appends_grow_witness :
    Char.ofNat 10 ∉ nowW.toList ∧ Char.ofNat 10 ∉ rdescW.toList ∧
    (create_file_with_header fsOld pathW nowW rdescW pathW = header nowW rdescW ∧
     (∀ q, create_file_with_header (create_file_with_header fsOld pathW nowW rdescW)
         pathW nowW rdescW q =
       create_file_with_header fsOld pathW nowW rdescW q) ∧
     newlineCount (create_file_with_header fsOld pathW nowW rdescW pathW) = 3 ∧
     append_file (create_file_with_header fsOld pathW nowW rdescW) pathW "x" pathW =
       header nowW rdescW ++ "x" ∧
     (create_file_with_header fsOld pathW nowW rdescW pathW).length ≤
       (append_file (create_file_with_header fsOld pathW nowW rdescW) pathW "x" pathW).length ∧
     (∀ inp st, ∃ t, (iterBody inp st).content = st.content ++ t)) :=
  ⟨by decide, by decide,
    c8_create_truncates_appends_grow fsOld pathW nowW rdescW "x" (by decide) (by decide)⟩

/-! ## C9: non-positive file counts -/

/-- C9 counterexample: `--files 0` and `--files -2` are not rejected: the
setup stage returns normally (no ConfigurationError is surfaced) and simply
creates zero files, after which the program still proceeds to its
monitoring loop with zero writers. -/
theorem c9_nonpositive_files_not_rejected :
    main_setup argsZeroFiles = Except.ok (rate_presets RateName.medium, []) ∧
    main_setup argsNegFiles = Except.ok (rate_presets RateName.medium, []) ∧
    (∀ e, main_setup argsZeroFiles ≠ Except.error e) := by
  refine ⟨rfl, rfl, ?_⟩
  intro e h
  simp [main_setup] at h

/-- C9 (amended): a non-positive count is not surfaced as a
ConfigurationError in either variant: the generator performs no validation
of `--files` and, for a non-positive value, creates zero files, spawns
zero writers and returns normally; in the layout variant a group count of
zero aborts with an uncaught ZeroDivisionError raised by the
`NUM_FILES // NUM_GROUPS` computation (not a ConfigurationError), and a
negative group count is silently accepted, emitting zero groups. -/
theorem c9_nonpositive_files_accepted (a : Args) (f g : Int)
    (h : a.files ≤ 0) (hg : g < 0) :
    created_file_paths a = [] ∧
    main_setup a = Except.ok (resolve_rate_config a, []) ∧
    layout_group_sizes f 0 =
      Except.error "ZeroDivisionError: integer division or modulo by zero" ∧
    layout_group_sizes f g = Except.ok [] := by
  have h0 : a.files.toNat = 0 := Int.toNat_of_nonpos h
  have hcf : created_file_paths a = [] := by
    unfold created_file_paths
    rw [h0]
    rfl
  refine ⟨hcf, ?_, ?_, ?_⟩
  · unfold main_setup
    rw [hcf]
  · unfold layout_group_sizes
    rw [if_pos rfl]
  · unfold layout_group_sizes
    rw [if_neg (by omega : ¬ g = 0), Int.toNat_of_nonpos (le_of_lt hg)]
    rfl

/-- C9 witness: the amended theorem at `--files -2`, layout file count 10
and layout group count -1. -/
theorem c9_nonpositive_files_accepted_witness :
    (argsNegFiles.files ≤ 0 ∧ (-1 : Int) < 0) ∧
    (created_file_paths argsNegFiles = [] ∧
     main_setup argsNegFiles = Except.ok (resolve_rate_config argsNegFiles, []) ∧
     layout_group_sizes 10 0 =
       Except.error "ZeroDivisionError: integer division or modulo by zero" ∧
     layout_group_sizes 10 (-1) = Except.ok []) :=
  ⟨⟨by decide, by decide⟩,
   c9_nonpositive_files_accepted argsNegFiles 10 (-1) (by decide) (by decide)⟩

/-! ## C4: iteration structure -/

/-- Folding `writeLine` adds one to the counter per line. -/
lemma foldl_writeLine_lines (ls : List String) :
    ∀ st : WriterState,
      (ls.foldl writeLine st).lines_written = st.lines_written + ls.length := by
  induction ls with
  | nil =>
    intro st
    simp
  | cons l tl ih =>
    intro st
    rw [List.foldl_cons, ih]
    simp only [writeLine, List.length_cons]
    omega

/-- `countWrites` distributes over append. -/
lemma countWrites_append (l1 l2 : List Event) :
    countWrites (l1 ++ l2) = countWrites l1 + countWrites l2 := by
  simp [countWrites, List.filter_append]

/-- A burst writes exactly `burst_size` lines. -/
lemma countWrites_burstEvents (inp : IterInput) :
    countWrites (burstEvents inp) = inp.burstSize := by
  unfold burstEvents
  rw [countWrites_append]
  have hflat : ∀ m : Nat,
      countWrites ((List.range m).flatMap
        (fun j => [Event.write (generate_log_line (inp.lines j)), Event.flush])) = m := by
    intro m
    induction m with
    | zero => rfl
    | succ k ih =>
      rw [List.range_succ, List.flatMap_append, countWrites_append, ih]
      rfl
  rw [hflat]
  rfl

/-- The number of lines an iteration writes matches its event trace. -/
lemma iterWrites_length (inp : IterInput) :
    (iterWrites inp).length = countWrites (writePhase inp) := by
  unfold iterWrites writePhase
  split_ifs with h
  · rw [countWrites_burstEvents, List.length_map, List.length_range]
  · rfl

/-- C4 counterexample: for a concrete non-burst iteration, the first
observable event of the iteration body is a write, not a sleep — the code
computes the interval first but only sleeps at the end of the iteration
(line 153), after appending, so the claimed sleep-first ordering is false. -/
theorem c4_first_event_is_write_not_sleep :
    (iterEvents (rate_presets RateName.fast) inp0).head? =
      some (Event.write (generate_log_line lineInp0)) ∧
    ¬ ∃ q rest, iterEvents (rate_presets RateName.fast) inp0 =
      Event.sleep q :: rest := by
  have hroll : ¬ (inp0.burstRoll < 1/10) := by
    show ¬ ((0.5 : ℚ) < 1/10)
    norm_num
  have hev : iterEvents (rate_presets RateName.fast) inp0 =
      [Event.write (generate_log_line (inp0.lines 0)), Event.flush,
       Event.sleep (uniform (rate_presets RateName.fast).min_interval
         (rate_presets RateName.fast).max_interval inp0.u)] := by
    unfold iterEvents writePhase
    rw [if_neg hroll]
    rfl
  constructor
  · rw [hev]
    rfl
  · rintro ⟨q, rest, h⟩
    rw [hev] at h
    simp at h

/-- C4 (amended): each iteration first appends its output — with
probability 0.10 (burst roll below 1/10) a burst of `burst_size ∈ [3,10]`
lines, each written then flushed, with the counter incremented once per
line; otherwise exactly one line, flushed, counter incremented by one —
and only then sleeps a duration drawn uniformly from
`[min_interval, max_interval]`: the sleep is the last event of the
iteration, no event of the write phase is a sleep, and the sleep duration
lies within the policy bounds. -/
theorem c4_iteration_writes_then_sleeps (rc : RateConfig) (inp : IterInput)
    (st : WriterState)
    (hu0 : 0 ≤ inp.u) (hu1 : inp.u ≤ 1)
    (hle : rc.min_interval ≤ rc.max_interval)
    (hb3 : 3 ≤ inp.burstSize) (hb10 : inp.burstSize ≤ 10) :
    iterEvents rc inp =
      writePhase inp ++
        [Event.sleep (uniform rc.min_interval rc.max_interval inp.u)] ∧
    rc.min_interval ≤ uniform rc.min_interval rc.max_interval inp.u ∧
    uniform rc.min_interval rc.max_interval inp.u ≤ rc.max_interval ∧
    (∀ e ∈ writePhase inp, ∀ q, e ≠ Event.sleep q) ∧
    countWrites (writePhase inp) =
      (if inp.burstRoll < 1/10 then inp.burstSize else 1) ∧
    1 ≤ countWrites (writePhase inp) ∧ countWrites (writePhase inp) ≤ 10 ∧
    (iterBody inp st).lines_written =
      st.lines_written + countWrites (writePhase inp) := by
  have hcount : countWrites (writePhase inp) =
      (if inp.burstRoll < 1/10 then inp.burstSize else 1) := by
    unfold writePhase
    split_ifs with h
    · exact countWrites_burstEvents inp
    · rfl
  refine ⟨rfl, ?_, ?_, ?_, hcount, ?_, ?_, ?_⟩
  · unfold uniform
    nlinarith [mul_nonneg (sub_nonneg.mpr hle) hu0]
  · unfold uniform
    nlinarith [mul_nonneg (sub_nonneg.mpr hle) (sub_nonneg.mpr hu1)]
  · intro e he q
    unfold writePhase at he
    split_ifs at he with h
    · simp only [burstEvents, List.mem_append, List.mem_flatMap, List.mem_cons,
        List.not_mem_nil, or_false, List.mem_singleton] at he
      rcases he with ⟨j, _, rfl | rfl⟩ | rfl <;> intro hc <;> exact Event.noConfusion hc
    · simp only [List.mem_cons, List.not_mem_nil, or_false, List.mem_singleton] at he
      rcases he with rfl | rfl <;> intro hc <;> exact Event.noConfusion hc
  · rw [hcount]
    split_ifs <;> omega
  · rw [hcount]
    split_ifs <;> omega
  · show ((iterWrites inp).foldl writeLine st).lines_written =
      st.lines_written + countWrites (writePhase inp)
    rw [foldl_writeLine_lines, iterWrites_length]

/-- C4 witness: the amended iteration theorem at the concrete non-burst
draw `inp0` and the `fast` preset. -/
theorem c4_iteration_writes_then_sleeps_witness :
    (0 ≤ inp0.u ∧ inp0.u ≤ 1 ∧
      (rate_presets RateName.fast).min_interval ≤
        (rate_presets RateName.fast).max_interval ∧
      3 ≤ inp0.burstSize ∧ inp0.burstSize ≤ 10) ∧
    (iterEvents (rate_presets RateName.fast) inp0 =
      writePhase inp0 ++
        [Event.sleep (uniform (rate_presets RateName.fast).min_interval
          (rate_presets RateName.fast).max_interval inp0.u)] ∧
    (rate_presets RateName.fast).min_interval ≤
      uniform (rate_presets RateName.fast).min_interval
        (rate_presets RateName.fast).max_interval inp0.u ∧
    uniform (rate_presets RateName.fast).min_interval
        (rate_presets RateName.fast).max_interval inp0.u ≤
      (rate_presets RateName.fast).max_interval ∧
    (∀ e ∈ writePhase inp0, ∀ q, e ≠ Event.sleep q) ∧
    countWrites (writePhase inp0) =
      (if inp0.burstRoll < 1/10 then inp0.burstSize else 1) ∧
    1 ≤ countWrites (writePhase inp0) ∧ countWrites (writePhase inp0) ≤ 10 ∧
    (iterBody inp0 st0).lines_written =
      st0.lines_written + countWrites (writePhase inp0)) :=
  ⟨⟨by norm_num [inp0], by norm_num [inp0], by norm_num [rate_presets],
     by norm_num [inp0], by norm_num [inp0]⟩,
   c4_iteration_writes_then_sleeps (rate_presets RateName.fast) inp0 st0
     (by norm_num [inp0]) (by norm_num [inp0]) (by norm_num [rate_presets])
     (by norm_num [inp0]) (by norm_num [inp0])⟩

/-! ## C2: stop observation within one iteration -/

/-- While every guard read is `true`, the loop just chains iteration bodies. -/
lemma generateLoop_append_all_true (l1 l2 : List (Bool × IterInput)) :
    ∀ st : WriterState, (∀ x ∈ l1, x.1 = true) →
      generateLoop (l1 ++ l2) st = generateLoop l2 (generateLoop l1 st) := by
  induction l1 with
  | nil =>
    intro st _
    rfl
  | cons hd tl ih =>
    intro st h
    obtain ⟨r, inp⟩ := hd
    have hr : r = true := h (r, inp) (List.mem_cons_self _ _)
    subst hr
    simp only [List.cons_append, generateLoop, if_true]
    exact ih (iterBody inp st) (fun x hx => h x (List.mem_cons_of_mem _ hx))

/-- A run of `n` all-true guard reads executes exactly `n` iterations. -/
lemma generateLoop_true_map (inps : Nat → IterInput) :
    ∀ (n : Nat) (st : WriterState),
      generateLoop ((List.range n).map (fun i => (true, inps i))) st =
        foldIters inps n st := by
  intro n
  induction n with
  | zero =>
    intro st
    rfl
  | succ k ih =>
    intro st
    rw [List.range_succ, List.map_append,
      generateLoop_append_all_true _ _ st (by
        intro x hx
        rw [List.mem_map] at hx
        obtain ⟨i, _, rfl⟩ := hx
        rfl),
      ih]
    show generateLoop [(true, inps k)] (foldIters inps k st) = foldIters inps (k + 1) st
    unfold foldIters
    rw [List.range_succ, List.foldl_append]
    simp [generateLoop]

/-- The counter after `n` complete iterations: the initial value plus the
full per-iteration line counts — every burst in those iterations completes
in full. -/
lemma foldIters_lines (inps : Nat → IterInput) :
    ∀ (n : Nat) (st : WriterState),
      (foldIters inps n st).lines_written =
        st.lines_written +
          ((List.range n).map (fun i => (iterWrites (inps i)).length)).sum := by
  intro n
  induction n with
  | zero =>
    intro st
    simp [foldIters]
  | succ k ih =>
    intro st
    unfold foldIters
    rw [List.range_succ, List.foldl_append]
    show (iterBody (inps k) (foldIters inps k st)).lines_written = _
    have hib : (iterBody (inps k) (foldIters inps k st)).lines_written =
        (foldIters inps k st).lines_written + (iterWrites (inps k)).length :=
      foldl_writeLine_lines (iterWrites (inps k)) (foldIters inps k st)
    rw [hib, ih st, List.map_append, List.sum_append]
    simp
    omega

/-- C2: once `stop()` clears the running flag at time `T`, the writer's
loop exits at its next guard read: it finishes the iteration in flight
(its write phase of duration `w (n-1)` — a burst completes in full — and
one sleep of duration `sleepDur (n-1)`) and terminates no later than
`T + w (n-1) + sleepDur (n-1)`, i.e. within one sleep interval after the
current sleep or burst finishes; the loop's final state is exactly the
fold of the `n` completed iteration bodies, with the counter accounting
for every line of the final burst, and no failure path exists (the loop
is a total function of its guard reads). -/
theorem c2_stop_observed_within_one_iteration (rc : RateConfig)
    (inps : Nat → IterInput) (w : Nat → ℚ) (T : ℚ) (n : Nat) (st : WriterState)
    (hT : 0 ≤ T)
    (hn1 : ∀ i, i < n → checkTime w (sleepDur rc inps) i < T)
    (hn2 : T ≤ checkTime w (sleepDur rc inps) n) :
    checkTime w (sleepDur rc inps) n ≤
      T + (if n = 0 then 0 else w (n - 1) + sleepDur rc inps (n - 1)) ∧
    generateLoop (stopTrace w (sleepDur rc inps) T inps n) st = foldIters inps n st ∧
    (foldIters inps n st).lines_written =
      st.lines_written +
        ((List.range n).map (fun i => (iterWrites (inps i)).length)).sum := by
  refine ⟨?_, ?_, foldIters_lines inps n st⟩
  · cases n with
    | zero =>
      rw [if_pos rfl]
      simp only [checkTime]
      linarith
    | succ k =>
      rw [if_neg (Nat.succ_ne_zero k)]
      have hk := hn1 k (Nat.lt_succ_self k)
      simp only [checkTime, Nat.succ_sub_one]
      linarith
  · unfold stopTrace
    rw [List.range_succ, List.map_append]
    have hmap : (List.range n).map
        (fun i => (decide (checkTime w (sleepDur rc inps) i < T), inps i)) =
        (List.range n).map (fun i => (true, inps i)) := by
      apply List.map_congr_left
      intro i hi
      rw [List.mem_range] at hi
      have hlt := hn1 i hi
      simp [hlt]
    rw [hmap, generateLoop_append_all_true _ _ st (by
        intro x hx
        rw [List.mem_map] at hx
        obtain ⟨i, _, rfl⟩ := hx
        rfl),
      generateLoop_true_map]
    have hfalse : decide (checkTime w (sleepDur rc inps) n < T) = false := by
      simp [not_lt.mpr hn2]
    simp [generateLoop, hfalse]

/-- C2 witness: the stop theorem with the `fast` preset, no write-phase
time, a constant draw stream, and the stop signal raised at `T = 1/20`
during the first iteration (whose sleep lasts `1/10`), so the loop exits
after exactly one complete iteration. -/
theorem c2_stop_observed_within_one_iteration_witness :
    (0 : ℚ) ≤ 1/20 ∧
    (checkTime wZero (sleepDur (rate_presets RateName.fast) inpsW) 1 ≤
      1/20 + (if (1 : Nat) = 0 then 0
        else wZero (1 - 1) + sleepDur (rate_presets RateName.fast) inpsW (1 - 1)) ∧
    generateLoop
        (stopTrace wZero (sleepDur (rate_presets RateName.fast) inpsW) (1/20) inpsW 1)
        st0 =
      foldIters inpsW 1 st0 ∧
    (foldIters inpsW 1 st0).lines_written =
      st0.lines_written +
        ((List.range 1).map (fun i => (iterWrites (inpsW i)).length)).sum) :=
  ⟨by norm_num,
   c2_stop_observed_within_one_iteration (rate_presets RateName.fast) inpsW wZero
     (1/20) 1 st0
     (by norm_num)
     (by
       intro i hi
       have h0 : i = 0 := by omega
       subst h0
       norm_num [checkTime])
     (by norm_num [checkTime, sleepDur, uniform, inpsW, inp0, wZero, rate_presets])⟩

/-! ## C10: inverted explicit bounds are accepted and harmless -/

/-- The loop equals the fold of the iterations taken before the first
`false` guard read: it is total and never fails for any guard-read
sequence. -/
lemma generateLoop_eq_takeWhile (tr : List (Bool × IterInput)) :
    ∀ st : WriterState,
      generateLoop tr st =
        ((tr.takeWhile (fun x => x.1)).map Prod.snd).foldl
          (fun s inp => iterBody inp s) st := by
  induction tr with
  | nil =>
    intro st
    rfl
  | cons hd tl ih =>
    intro st
    obtain ⟨r, inp⟩ := hd
    cases r
    · simp [generateLoop, List.takeWhile_cons]
    · simp [generateLoop, List.takeWhile_cons, ih]

/-- C10: supplying both explicit bounds with `min_interval > max_interval`
is accepted verbatim; the uniform draw still yields a value, now lying in
the reversed range `[max_interval, min_interval]`; and the writer loop
stays total — for every guard-read sequence it deterministically equals
the fold of the iterations taken before the first `false` read, so no
writer fails or diverges because of the inverted policy. -/
theorem c10_inverted_policy_accepted_and_safe (a : Args) (mn mx u : ℚ)
    (hmn : a.min_interval = some mn) (hmx : a.max_interval = some mx)
    (hlt : mx < mn) (hu0 : 0 ≤ u) (hu1 : u ≤ 1) :
    resolve_rate_config a = ⟨mn, mx⟩ ∧
    mx ≤ uniform mn mx u ∧ uniform mn mx u ≤ mn ∧
    (∀ (tr : List (Bool × IterInput)) (st : WriterState),
      generateLoop tr st =
        ((tr.takeWhile (fun x => x.1)).map Prod.snd).foldl
          (fun s inp => iterBody inp s) st) := by
  have hres : resolve_rate_config a = ⟨mn, mx⟩ := by
    unfold resolve_rate_config
    rw [hmn, hmx]
  refine ⟨hres, ?_, ?_, fun tr st => generateLoop_eq_takeWhile tr st⟩
  · unfold uniform
    nlinarith [mul_nonneg (show (0:ℚ) ≤ mn - mx by linarith)
      (show (0:ℚ) ≤ 1 - u by linarith)]
  · unfold uniform
    nlinarith [mul_nonneg (show (0:ℚ) ≤ mn - mx by linarith) hu0]

/-- C10 witness: the inverted-override theorem at the concrete invocation
`--min-interval 5 --max-interval 1` with draw `u = 1/2`. -/
theorem c10_inverted_policy_accepted_and_safe_witness :
    ((1.0 : ℚ) < 5.0 ∧ (0 : ℚ) ≤ 1/2 ∧ (1/2 : ℚ) ≤ 1) ∧
    (resolve_rate_config argsInverted = ⟨5.0, 1.0⟩ ∧
     (1.0 : ℚ) ≤ uniform 5.0 1.0 (1/2) ∧ uniform 5.0 1.0 (1/2) ≤ 5.0 ∧
     (∀ (tr : List (Bool × IterInput)) (st : WriterState),
       generateLoop tr st =
         ((tr.takeWhile (fun x => x.1)).map Prod.snd).foldl
           (fun s inp => iterBody inp s) st)) :=
  ⟨⟨by norm_num, by norm_num, by norm_num⟩,
   c10_inverted_policy_accepted_and_safe argsInverted 5.0 1.0 (1/2) rfl rfl
     (by norm_num) (by norm_num) (by norm_num)⟩
